import Mathlib

/-!
A shallow embedding of the credential-mapping reconciliation and validation
engine of `src/ruckitAssets.js` (Geotab Ruckit Assets add-in).

JavaScript values are modelled as follows:
* a possibly-undefined string field is `Option String` (`none` = `undefined`);
* the JS falsy-default idiom `x || d` (which replaces both `undefined` and the
  empty string by `d`) is `jsOr`;
* timestamps compared by `new Date(...)` are `Int` (milliseconds);
* gateway calls are explicit: fetch results are passed in as parameters
  (`Except String _` mirrors a promise that either resolves or rejects),
  and writes are recorded as a list of `GatewayCall`s.

Definitions follow the source line by line; the source line numbers are cited
in each doc comment.
-/

namespace RuckitAssets

/-- The JS idiom `x || d` on string-valued fields: `undefined` and `""` are
falsy, everything else passes through. -/
def jsOr (x : Option String) (d : String) : String :=
  match x with
  | none => d
  | some s => if s = "" then d else s

/-- The `details` object of an AddInData record, with the keys used by the
add-in (`ri-token`, `ri-device`, `ri-driver`, `name`, `gt-device`, `gt-sn`,
`date`, `type`).  Every field may be absent (`none` = `undefined`). -/
structure Details where
  riToken : Option String
  riDevice : Option String
  riDriver : Option String
  name : Option String
  gtDevice : Option String
  gtSn : Option String
  date : Option String
  type : Option String
  deriving DecidableEq, Repr

/-- An AddInData credential-mapping record.  `id` is `none` until the gateway
assigns one; `version` is the opaque optimistic-concurrency token; `details`
itself may be absent (the source guards `mapping.details` everywhere). -/
structure Mapping where
  id : Option Nat
  version : Option Nat
  details : Option Details
  deriving DecidableEq, Repr

/-- A Geotab `Device` record, restricted to the fields the add-in reads. -/
structure Device where
  id : String
  name : Option String
  activeTo : Option Int
  serialNumber : Option String
  deriving DecidableEq, Repr

/-- `filterPlaceholderEntries`, the placeholder test (source lines 45-57):
an entry is a placeholder when, after the `|| ''` defaulting, `ri-device`,
`ri-driver` and `ri-token` simultaneously equal their sentinels. -/
def isPlaceholderEntry (item : Mapping) : Bool :=
  let ruckitDevice := jsOr (item.details.bind (·.riDevice)) ""
  let ruckitDriver := jsOr (item.details.bind (·.riDriver)) ""
  let ruckitToken := jsOr (item.details.bind (·.riToken)) ""
  ruckitDevice == "DeviceID" && ruckitDriver == "DriverID" && ruckitToken == "TOKEN"

/-- `filterPlaceholderEntries` (source lines 45-57): drop placeholder
entries. -/
def filterPlaceholderEntries (data : List Mapping) : List Mapping :=
  data.filter (fun item => !(isPlaceholderEntry item))

/-- `filterRetiredDevices` (source lines 277-285): keep a device when it has
no `activeTo` or its `activeTo` is strictly after `now`. -/
def filterRetiredDevices (now : Int) (devices : List Device) : List Device :=
  devices.filter fun device =>
    match device.activeTo with
    | none => true
    | some activeTo => activeTo > now

/-- `validateCredentials` (source lines 801-839): walk `assetsData` in order;
skip records without `details`, the record keyed by `currentDeviceId`, and any
record one of whose three credential fields equals its sentinel; report the
first collision, checking the token, then the external device id, then the
external driver id. -/
def validateCredentials (assetsData : List Mapping)
    (token device driver currentDeviceId : String) : Option String :=
  match assetsData with
  | [] => none
  | mapping :: rest =>
    match mapping.details with
    | none => validateCredentials rest token device driver currentDeviceId
    | some d =>
      if d.gtDevice == some currentDeviceId then
        validateCredentials rest token device driver currentDeviceId
      else if d.riToken == some "TOKEN" || d.riDevice == some "DeviceID"
          || d.riDriver == some "DriverID" then
        validateCredentials rest token device driver currentDeviceId
      else if d.riToken == some token then
        some ("Token \"" ++ token ++ "\" is already in use by device \""
          ++ jsOr d.name "Unknown Device" ++ "\"")
      else if d.riDevice == some device then
        some ("Device ID \"" ++ device ++ "\" is already in use by device \""
          ++ jsOr d.name "Unknown Device" ++ "\"")
      else if d.riDriver == some driver then
        some ("Driver ID \"" ++ driver ++ "\" is already in use by device \""
          ++ jsOr d.name "Unknown Device" ++ "\"")
      else
        validateCredentials rest token device driver currentDeviceId

/-- A mapping that `validateCredentials` actually compares the candidate
against and finds colliding: it has details, belongs to a different device,
has no sentinel field, and one of its three fields equals the corresponding
candidate field. -/
def conflictsWith (m : Mapping) (token device driver currentDeviceId : String) : Bool :=
  match m.details with
  | none => false
  | some d =>
    !(d.gtDevice == some currentDeviceId) &&
    !(d.riToken == some "TOKEN" || d.riDevice == some "DeviceID"
        || d.riDriver == some "DriverID") &&
    (d.riToken == some token || d.riDevice == some device || d.riDriver == some driver)

/-- The message `validateCredentials` produces for a colliding mapping,
token collision first, then external device id, then external driver id. -/
def conflictMessage (m : Mapping) (token device driver : String) : String :=
  match m.details with
  | none => ""
  | some d =>
    if d.riToken == some token then
      "Token \"" ++ token ++ "\" is already in use by device \""
        ++ jsOr d.name "Unknown Device" ++ "\""
    else if d.riDevice == some device then
      "Device ID \"" ++ device ++ "\" is already in use by device \""
        ++ jsOr d.name "Unknown Device" ++ "\""
    else
      "Driver ID \"" ++ driver ++ "\" is already in use by device \""
        ++ jsOr d.name "Unknown Device" ++ "\""

/-- `findExistingMappingForDevice` (source lines 713-718): the first mapping
in `assetsData` whose `details['gt-device']` equals `deviceId`. -/
def findExistingMappingForDevice (assetsData : List Mapping) (deviceId : String) :
    Option Mapping :=
  assetsData.find? fun mapping =>
    match mapping.details with
    | none => false
    | some d => d.gtDevice == some deviceId

/-- `getAllDevices` (source lines 532-540): on a resolved call return
`devices || []`; on a rejected call the error is caught, logged, and an empty
list is returned. -/
def getAllDevices (resp : Except String (Option (List Device))) : List Device :=
  match resp with
  | .ok (some devices) => devices
  | .ok none => []
  | .error _ => []

/-- `getRuckitMappings` (source lines 141-153): on a resolved call return
`data || []`; on a rejected call the error is caught, logged, and an empty
list is returned. -/
def getRuckitMappings (resp : Except String (Option (List Mapping))) : List Mapping :=
  match resp with
  | .ok (some data) => data
  | .ok none => []
  | .error _ => []

/-- The `new Map(devices.map(d => [d.id, d.name]))` lookup of
`syncDeviceNames` (source line 232): a JS `Map` built from a list keeps the
last entry for a duplicated key; `get` yields `undefined` (outer `none`) for
a missing key and the stored `d.name` (itself possibly `undefined`)
otherwise. -/
def deviceMapGet (devices : List Device) (deviceId : String) : Option (Option String) :=
  (devices.reverse.find? (fun d => d.id == deviceId)).map (·.name)

/-- The staging loop of `syncDeviceNames` (source lines 232-257): for each
mapping with a truthy `gt-device`, when the live device name is truthy and
differs from the stored name, stage a copy with `name` replaced and `date`
refreshed. -/
def stageNameUpdates (devices : List Device) (mappings : List Mapping)
    (nowIso : String) : List Mapping :=
  mappings.filterMap fun mapping =>
    match mapping.details with
    | none => none
    | some d =>
      match d.gtDevice with
      | none => none
      | some gtDev =>
        if gtDev == "" then none
        else
          match deviceMapGet devices gtDev with
          | some (some currentName) =>
            if !(currentName == "") && !(d.name == some currentName) then
              some { mapping with
                details := some { d with name := some currentName, date := some nowIso } }
            else none
          | _ => none

/-- The update loop of `syncDeviceNames` (source lines 260-269): `Set` calls
are issued one at a time; the `try` wraps the whole `for` loop, so the list of
calls actually issued is the longest prefix of successful calls plus, when a
call fails, that one failing call — nothing after the first failure is
issued.  `ok i` tells whether the `i`-th `Set` call succeeds. -/
def issuedRun (ok : Nat → Bool) : Nat → List Mapping → List Mapping
  | _, [] => []
  | i, u :: rest => if ok i then u :: issuedRun ok (i + 1) rest else [u]

/-- The `Set` calls of the update loop of `syncDeviceNames` that succeed:
the longest all-successful prefix (a failing call does not change the store,
and aborts the loop). -/
def succeededRun (ok : Nat → Bool) : Nat → List Mapping → List Mapping
  | _, [] => []
  | i, u :: rest => if ok i then u :: succeededRun ok (i + 1) rest else []

/-- The orphan filter of `loadRuckitAssets` (source lines 186-193): keep a
mapping when `details?.['gt-device']` is truthy and some active device has
that id. -/
def keepMapping (allDevicesData : List Device) (mapping : Mapping) : Bool :=
  match mapping.details.bind (·.gtDevice) with
  | none => false
  | some deviceId =>
    if deviceId == "" then false
    else allDevicesData.any (fun device => device.id == deviceId)

/-- The orphan filter of `loadRuckitAssets` (source lines 186-193) applied to
the whole mapping list. -/
def filterOrphanMappings (allDevicesData : List Device) (assetsData : List Mapping) :
    List Mapping :=
  assetsData.filter (keepMapping allDevicesData)

/-- The in-memory reconciled view `loadRuckitAssets` leaves behind: the
module-level `allDevicesData` and `assetsData` variables. -/
structure View where
  allDevicesData : List Device
  assetsData : List Mapping
  deriving DecidableEq, Repr

/-- The environment of one `loadRuckitAssets` run: the clock, the gateway's
responses to the device fetch, the mapping fetch and the post-sync mapping
re-fetch, and the success of each sequential `Set` call of the name sync. -/
structure LoadInputs where
  now : Int
  nowIso : String
  ok : Nat → Bool
  deviceResp : Except String (Option (List Device))
  mappingResp : Except String (Option (List Mapping))
  refetchResp : Except String (Option (List Mapping))

/-- What one `loadRuckitAssets` run produces: the view (or a surfaced error —
the source's top-level `try`/`catch`, lines 222-225, which in fact can never
fire because every fetch helper catches its own errors) and the list of `Set`
writes issued by the name sync. -/
structure LoadOutcome where
  result : Except String View
  issuedSets : List Mapping
  deriving Repr

/-- `loadRuckitAssets` (source lines 158-226), the reconciliation pipeline:
fetch devices, drop retired ones, fetch mappings, sync names (sequential
`Set`s), re-fetch mappings when any update was staged, then drop mappings
whose `gt-device` is falsy or names no active device. -/
def loadRuckitAssets (inp : LoadInputs) : LoadOutcome :=
  let allDevices := getAllDevices inp.deviceResp
  let allDevicesData := filterRetiredDevices inp.now allDevices
  let ruckitData := getRuckitMappings inp.mappingResp
  let updates := stageNameUpdates allDevicesData ruckitData inp.nowIso
  let issued := issuedRun inp.ok 0 updates
  let assetsData0 := if updates.length > 0 then getRuckitMappings inp.refetchResp
    else ruckitData
  let assetsData := filterOrphanMappings allDevicesData assetsData0
  ⟨.ok ⟨allDevicesData, assetsData⟩, issued⟩

/-- `Set` on the AddInData store: replace every record whose `id` equals the
written record's `id`. -/
def gwSet (store : List Mapping) (record : Mapping) : List Mapping :=
  store.map (fun m => if m.id == record.id then record else m)

/-- `Add` on the AddInData store: append the record with a gateway-assigned
fresh id. -/
def gwAdd (store : List Mapping) (record : Mapping) (freshId : Nat) : List Mapping :=
  store ++ [{ record with id := some freshId }]

/-- A sequence of successful `Set` writes applied to the store. -/
def applySets (store : List Mapping) (writes : List Mapping) : List Mapping :=
  writes.foldl gwSet store

/-- One reconciliation pass against a store, under successful fetches and no
concurrent external mutation: the mapping fetch returns the store, and the
post-sync re-fetch returns the store with the successful `Set` writes
applied.  Returns the view, the new store, and the issued `Set` calls. -/
structure ReconcileOutcome where
  view : View
  store : List Mapping
  issuedSets : List Mapping
  deriving Repr

/-- `loadRuckitAssets` specialised to successful fetches over an explicit
store (see `ReconcileOutcome`). -/
def reconcile (now : Int) (nowIso : String) (ok : Nat → Bool)
    (devices : List Device) (store : List Mapping) : ReconcileOutcome :=
  let updates := stageNameUpdates (filterRetiredDevices now devices) store nowIso
  let store2 := applySets store (succeededRun ok 0 updates)
  let out := loadRuckitAssets
    ⟨now, nowIso, ok, .ok (some devices), .ok (some store), .ok (some store2)⟩
  ⟨match out.result with
    | .ok v => v
    | .error _ => ⟨[], []⟩,
   store2, out.issuedSets⟩

/-- A gateway call issued by the writer, in issue order. -/
inductive GatewayCall where
  | getDevice (deviceId : String)
  | addAddInData (record : Mapping)
  | setAddInData (record : Mapping)
  deriving DecidableEq, Repr

/-- The local rejections of `saveCredentials` (source lines 853-869), each
shown to the operator as an alert before any gateway call. -/
inductive SaveError where
  | missingField
  | sentinelField
  | conflict (msg : String)
  deriving DecidableEq, Repr

/-- The local rejection of `clearCredentials` (source lines 923-926). -/
inductive ClearError where
  | notFound
  deriving DecidableEq, Repr

/-- The `mappingData` object literal built by `saveCredentials` (source lines
877-890) and `clearCredentials` (source lines 931-945): a full record with
every detail field set; `id`/`version` as supplied. -/
def mkMappingData (deviceId deviceName : String) (serialNumber : Option String)
    (token device driver nowIso : String) (idv ver : Option Nat) : Mapping :=
  { id := idv, version := ver,
    details := some
      { riToken := some token, riDevice := some device, riDriver := some driver,
        name := some deviceName, gtDevice := some deviceId, gtSn := serialNumber,
        date := some nowIso, type := some "ri-device" } }

/-- `devices && devices[0] ? devices[0].serialNumber : ''` (source lines
872-873 and 928-929): the serial taken from the fresh `Get Device` response,
`''` when the response is null/empty, and the (possibly undefined) field
otherwise. -/
def fetchedSerial (resp : Option (List Device)) : Option String :=
  match resp with
  | none => some ""
  | some devices =>
    match devices.head? with
    | none => some ""
    | some d => d.serialNumber

/-- JS `String.prototype.trim()`: strip leading and trailing whitespace.
(Modelled structurally over the character list so that it evaluates;
`String.trim` itself is defined by well-founded recursion on byte
positions.) -/
def jsTrim (s : String) : String :=
  ⟨((s.data.dropWhile Char.isWhitespace).reverse.dropWhile Char.isWhitespace).reverse⟩

/-- What one `saveCredentials` run produces: the written record (or the local
rejection) and the gateway calls issued, in order. -/
structure SaveOutcome where
  result : Except SaveError Mapping
  calls : List GatewayCall
  deriving Repr

/-- `saveCredentials` (source lines 844-910): trim the three inputs; reject
when any is empty, any literally equals its sentinel, or the validator
reports a collision — all three rejections happen before any gateway call.
Otherwise fetch the device fresh for its serial number, and write: an update
(`Set`) reusing the existing mapping's `id`/`version` when one exists for the
device, a create (`Add`) with null `id` otherwise.  `deviceResp` is the
resolved `Get Device` response. -/
def saveCredentials (assetsData : List Mapping) (deviceId deviceName : String)
    (tokenRaw deviceRaw driverRaw : String) (deviceResp : Option (List Device))
    (nowIso : String) : SaveOutcome :=
  let token := jsTrim tokenRaw
  let device := jsTrim deviceRaw
  let driver := jsTrim driverRaw
  if token == "" || device == "" || driver == "" then
    ⟨.error .missingField, []⟩
  else if token == "TOKEN" || device == "DeviceID" || driver == "DriverID" then
    ⟨.error .sentinelField, []⟩
  else
    match validateCredentials assetsData token device driver deviceId with
    | some msg => ⟨.error (.conflict msg), []⟩
    | none =>
      let serialNumber := fetchedSerial deviceResp
      match findExistingMappingForDevice assetsData deviceId with
      | some existing =>
        let record := mkMappingData deviceId deviceName serialNumber
          token device driver nowIso existing.id existing.version
        ⟨.ok record, [.getDevice deviceId, .setAddInData record]⟩
      | none =>
        let record := mkMappingData deviceId deviceName serialNumber
          token device driver nowIso none none
        ⟨.ok record, [.getDevice deviceId, .addAddInData record]⟩

/-- What one `clearCredentials` run produces. -/
structure ClearOutcome where
  result : Except ClearError Mapping
  calls : List GatewayCall
  deriving Repr

/-- `clearCredentials` (source lines 915-961, the operator having confirmed
the dialog): fail when no mapping exists for the device; otherwise fetch the
serial fresh and issue an update (`Set`, never `Add`) that overwrites the
three credential fields with their sentinels, reusing the existing mapping's
`id`/`version`. -/
def clearCredentials (assetsData : List Mapping) (deviceId deviceName : String)
    (deviceResp : Option (List Device)) (nowIso : String) : ClearOutcome :=
  match findExistingMappingForDevice assetsData deviceId with
  | none => ⟨.error .notFound, []⟩
  | some existing =>
    let serialNumber := fetchedSerial deviceResp
    let record := mkMappingData deviceId deviceName serialNumber
      "TOKEN" "DeviceID" "DriverID" nowIso existing.id existing.version
    ⟨.ok record, [.getDevice deviceId, .setAddInData record]⟩

/-- The three stored credential fields of a mapping. -/
def credFields (m : Mapping) : Option String × Option String × Option String :=
  (m.details.bind (·.riToken), m.details.bind (·.riDevice), m.details.bind (·.riDriver))

/-- A mapping's details with the `date` (`lastModified`) masked out, for
"equal modulo lastModified" statements. -/
def detailsSansDate (m : Mapping) : Option Details :=
  m.details.map (fun d => { d with date := none })

/-- A non-placeholder mapping (its external-device-id and external-driver-id
are real values) that `validateCredentials` nevertheless never compares the
candidate against, because its token field alone is the sentinel. -/
def halfConfiguredMapping : Mapping :=
  ⟨some 1, some 1,
   some ⟨some "TOKEN", some "dev-X", some "drv-1", some "Truck B", some "devB",
         none, none, some "ri-device"⟩⟩

/-- A non-placeholder mapping of device `devB` whose external-device-id field
holds the real value `"dev-match"`, used to refute C2's "returns null exactly
when no field of a non-placeholder mapping collides". -/
def c2Mapping : Mapping :=
  ⟨some 3, some 1,
   some ⟨some "TOKEN", some "dev-match", some "drv-B", some "Truck B", some "devB",
         none, none, some "ri-device"⟩⟩

/-- Two active devices for the name-sync abort scenario. -/
def c3Device1 : Device := ⟨"d1", some "N1", none, none⟩

/-- Second active device for the name-sync abort scenario. -/
def c3Device2 : Device := ⟨"d2", some "N2", none, none⟩

/-- A mapping of `c3Device1` whose cached name `"Old1"` is stale. -/
def c3Mapping1 : Mapping :=
  ⟨some 10, some 1,
   some ⟨some "t1", some "x1", some "y1", some "Old1", some "d1", none, none,
         some "ri-device"⟩⟩

/-- A mapping of `c3Device2` whose cached name `"Old2"` is stale. -/
def c3Mapping2 : Mapping :=
  ⟨some 11, some 1,
   some ⟨some "t2", some "x2", some "y2", some "Old2", some "d2", none, none,
         some "ri-device"⟩⟩

/-- A reconciliation run in which two name updates are staged and every `Set`
call fails. -/
def c3Inputs : LoadInputs :=
  ⟨100, "ISO", fun _ => false, .ok (some [c3Device1, c3Device2]),
   .ok (some [c3Mapping1, c3Mapping2]), .ok (some [c3Mapping1, c3Mapping2])⟩

/-- A reconciliation run whose device fetch and whose mapping fetch both
reject. -/
def c4Inputs : LoadInputs :=
  ⟨0, "ISO", fun _ => true, .error "network down", .error "network down", .ok none⟩

/-- A reconciliation run with one active device whose mapping fetch
rejects. -/
def c4MappingFailInputs : LoadInputs :=
  ⟨0, "ISO", fun _ => true, .ok (some [c3Device1]), .error "boom", .ok none⟩

/-- A device used by the C8 witness: retired-check boundary. -/
def c8Device : Device := ⟨"d8", some "N8", some 10, none⟩

/-- A mapping whose `gt-device` names no active device, for the C9
witness. -/
def c9Orphan : Mapping :=
  ⟨some 20, some 1,
   some ⟨some "tz", some "xz", some "yz", some "Ghost", some "zz", none, none,
         some "ri-device"⟩⟩

/-- A reconciliation run for the C9 witness: one active device `d1`, one
orphaned mapping. -/
def c9Inputs : LoadInputs :=
  ⟨0, "ISO", fun _ => true, .ok (some [c3Device1]), .ok (some [c9Orphan]), .ok none⟩

/-- A mapping of `c3Device1` whose cached name is already live, for the C10
witness. -/
def c10Mapping : Mapping :=
  ⟨some 21, some 1,
   some ⟨some "tc", some "xc", some "yc", some "N1", some "d1", none, none,
         some "ri-device"⟩⟩

/-- A reconciliation run for the C10 witness. -/
def c10Inputs : LoadInputs :=
  ⟨0, "ISO", fun _ => true, .ok (some [c3Device1]), .ok (some [c10Mapping]), .ok none⟩

/-- An existing mapping of device `dA`, used to exercise the update path of
`saveCredentials`. -/
def c6Existing : Mapping :=
  ⟨some 5, some 9,
   some ⟨some "oldTok", some "oldDev", some "oldDrv", some "Truck A", some "dA",
         some "SNo", some "2020", some "ri-device"⟩⟩

/-- An existing fully-synced mapping of device `dA`, for the C7 witness. -/
def c7m0 : Mapping :=
  ⟨some 7, some 3,
   some ⟨some "tk", some "dx", some "dr", some "Truck A", some "dA", some "SN",
         some "old", some "ri-device"⟩⟩


/-! ## Helper lemmas -/

/-- If `jsOr x dft = s` and `s` is neither the default nor empty, the field
really holds `s`. -/
lemma jsOr_eq_some (x : Option String) (dft s : String) (h : jsOr x dft = s)
    (hdft : s ≠ dft) : x = some s := by
  cases x with
  | none => exact absurd h.symm hdft
  | some v =>
    simp only [jsOr] at h
    by_cases hv : v = ""
    · rw [if_pos hv] at h; exact absurd h.symm hdft
    · rw [if_neg hv] at h; exact congrArg some h

/-- A mapping `validateCredentials` does not compare against is transparent:
the scan continues with the rest of the list. -/
lemma validate_cons_skip (m : Mapping) (rest : List Mapping) (t d r cur : String)
    (h : conflictsWith m t d r cur = false) :
    validateCredentials (m :: rest) t d r cur = validateCredentials rest t d r cur := by
  cases hd : m.details with
  | none => simp [validateCredentials, hd]
  | some dd =>
    cases hA : dd.gtDevice == some cur with
    | true => simp [validateCredentials, hd, hA]
    | false =>
      cases hB : (dd.riToken == some "TOKEN" || dd.riDevice == some "DeviceID"
          || dd.riDriver == some "DriverID") with
      | true => simp [validateCredentials, hd, hA, hB]
      | false =>
        have hC : (dd.riToken == some t || dd.riDevice == some d
            || dd.riDriver == some r) = false := by
          simpa [conflictsWith, hd, hA, hB] using h
        simp only [Bool.or_eq_false_iff] at hC
        simp [validateCredentials, hd, hA, hB, hC.1.1, hC.1.2, hC.2]

/-- A mapping `validateCredentials` does compare against and finds colliding
stops the scan with its message. -/
lemma validate_cons_conflict (m : Mapping) (rest : List Mapping) (t d r cur : String)
    (h : conflictsWith m t d r cur = true) :
    validateCredentials (m :: rest) t d r cur = some (conflictMessage m t d r) := by
  cases hd : m.details with
  | none => simp [conflictsWith, hd] at h
  | some dd =>
    rw [conflictsWith, hd] at h
    simp only [Bool.and_eq_true, Bool.not_eq_true'] at h
    obtain ⟨⟨hA, hB⟩, hC⟩ := h
    cases h1 : dd.riToken == some t with
    | true => simp [validateCredentials, conflictMessage, hd, hA, hB, h1]
    | false =>
      cases h2 : dd.riDevice == some d with
      | true => simp [validateCredentials, conflictMessage, hd, hA, hB, h1, h2]
      | false =>
        have h3 : (dd.riDriver == some r) = true := by
          rw [h1, h2] at hC; simpa using hC
        simp [validateCredentials, conflictMessage, hd, hA, hB, h1, h2, h3]

/-- `issuedRun` issues nothing after the first failing call: if the `i`-th
`Set` call fails, at most `i + 1` calls are issued in total (counting from
call `j`, at most `i + 1 - j`). -/
lemma issuedRun_length_le (ok : Nat → Bool) (i : Nat) (hfail : ok i = false) :
    ∀ (l : List Mapping) (j : Nat), j ≤ i →
      (issuedRun ok j l).length ≤ i + 1 - j := by
  intro l
  induction l with
  | nil => intro j _; simp [issuedRun]
  | cons u rest ih =>
    intro j hj
    by_cases hok : ok j = true
    · have hji : j < i := by
        rcases Nat.lt_or_ge j i with h | h
        · exact h
        · exact absurd hfail (by rw [Nat.le_antisymm hj h] at hok; simp [hok])
      have := ih (j + 1) hji
      simp only [issuedRun, hok, if_true, List.length_cons]
      omega
    · simp only [issuedRun, Bool.not_eq_true] at hok ⊢
      rw [hok]
      simp only [Bool.false_eq_true, if_false, List.length_cons, List.length_nil]
      omega

/-- `saveCredentials` on a validation pass reduces to the create/update
branch on `findExistingMappingForDevice`. -/
lemma saveCredentials_success (assetsData : List Mapping)
    (deviceId deviceName tokenRaw deviceRaw driverRaw : String)
    (deviceResp : Option (List Device)) (nowIso : String)
    (h1 : (jsTrim tokenRaw == "" || jsTrim deviceRaw == ""
        || jsTrim driverRaw == "") = false)
    (h2 : (jsTrim tokenRaw == "TOKEN" || jsTrim deviceRaw == "DeviceID"
        || jsTrim driverRaw == "DriverID") = false)
    (h3 : validateCredentials assetsData (jsTrim tokenRaw) (jsTrim deviceRaw)
        (jsTrim driverRaw) deviceId = none) :
    saveCredentials assetsData deviceId deviceName tokenRaw deviceRaw driverRaw
        deviceResp nowIso =
      match findExistingMappingForDevice assetsData deviceId with
      | some existing =>
        ⟨.ok (mkMappingData deviceId deviceName (fetchedSerial deviceResp)
            (jsTrim tokenRaw) (jsTrim deviceRaw) (jsTrim driverRaw) nowIso
            existing.id existing.version),
         [.getDevice deviceId, .setAddInData (mkMappingData deviceId deviceName
            (fetchedSerial deviceResp) (jsTrim tokenRaw) (jsTrim deviceRaw)
            (jsTrim driverRaw) nowIso existing.id existing.version)]⟩
      | none =>
        ⟨.ok (mkMappingData deviceId deviceName (fetchedSerial deviceResp)
            (jsTrim tokenRaw) (jsTrim deviceRaw) (jsTrim driverRaw) nowIso none none),
         [.getDevice deviceId, .addAddInData (mkMappingData deviceId deviceName
            (fetchedSerial deviceResp) (jsTrim tokenRaw) (jsTrim deviceRaw)
            (jsTrim driverRaw) nowIso none none)]⟩ := by
  simp only [saveCredentials, h1, h2, h3, Bool.false_eq_true, if_false]

/-- `saveCredentials` with an empty trimmed field: local rejection, no
calls. -/
lemma save_reject_missing (assetsData : List Mapping)
    (deviceId deviceName tokenRaw deviceRaw driverRaw : String)
    (deviceResp : Option (List Device)) (nowIso : String)
    (h1 : (jsTrim tokenRaw == "" || jsTrim deviceRaw == ""
        || jsTrim driverRaw == "") = true) :
    saveCredentials assetsData deviceId deviceName tokenRaw deviceRaw driverRaw
        deviceResp nowIso = ⟨.error .missingField, []⟩ := by
  simp only [saveCredentials, h1, if_true]

/-- `saveCredentials` with a sentinel-literal field: local rejection, no
calls. -/
lemma save_reject_sentinel (assetsData : List Mapping)
    (deviceId deviceName tokenRaw deviceRaw driverRaw : String)
    (deviceResp : Option (List Device)) (nowIso : String)
    (h1 : (jsTrim tokenRaw == "" || jsTrim deviceRaw == ""
        || jsTrim driverRaw == "") = false)
    (h2 : (jsTrim tokenRaw == "TOKEN" || jsTrim deviceRaw == "DeviceID"
        || jsTrim driverRaw == "DriverID") = true) :
    saveCredentials assetsData deviceId deviceName tokenRaw deviceRaw driverRaw
        deviceResp nowIso = ⟨.error .sentinelField, []⟩ := by
  simp only [saveCredentials, h1, h2, Bool.false_eq_true, if_false, if_true]

/-- `saveCredentials` when the validator reports a collision: local
rejection, no calls. -/
lemma save_reject_conflict (assetsData : List Mapping)
    (deviceId deviceName tokenRaw deviceRaw driverRaw : String)
    (deviceResp : Option (List Device)) (nowIso : String) (msg : String)
    (h1 : (jsTrim tokenRaw == "" || jsTrim deviceRaw == ""
        || jsTrim driverRaw == "") = false)
    (h2 : (jsTrim tokenRaw == "TOKEN" || jsTrim deviceRaw == "DeviceID"
        || jsTrim driverRaw == "DriverID") = false)
    (h3 : validateCredentials assetsData (jsTrim tokenRaw) (jsTrim deviceRaw)
        (jsTrim driverRaw) deviceId = some msg) :
    saveCredentials assetsData deviceId deviceName tokenRaw deviceRaw driverRaw
        deviceResp nowIso = ⟨.error (.conflict msg), []⟩ := by
  simp only [saveCredentials, h1, h2, h3, Bool.false_eq_true, if_false]

/-- Unpacking a successful orphan-filter test: the mapping has a truthy
`gt-device` naming some active device. -/
lemma keepMapping_eq_true (A : List Device) (m : Mapping)
    (h : keepMapping A m = true) :
    ∃ dId, m.details.bind (·.gtDevice) = some dId ∧ dId ≠ "" ∧
      ∃ dev ∈ A, dev.id = dId := by
  rw [keepMapping] at h
  cases hb : m.details.bind (·.gtDevice) with
  | none => rw [hb] at h; exact absurd h (by simp)
  | some dId =>
    rw [hb] at h
    dsimp only at h
    by_cases he : (dId == "") = true
    · rw [if_pos he] at h
      exact absurd h (by simp)
    · rw [if_neg he] at h
      rw [List.any_eq_true] at h
      obtain ⟨dev, hdev, hidq⟩ := h
      exact ⟨dId, rfl, by simpa using he, dev, hdev, by simpa using hidq⟩


/-- `findExistingMappingForDevice` returns the head of the list when the head
already maps the requested device. -/
lemma findExisting_head (m0 : Mapping) (rest : List Mapping) (deviceId : String)
    (dd : Details) (hd : m0.details = some dd) (hgt : dd.gtDevice = some deviceId) :
    findExistingMappingForDevice (m0 :: rest) deviceId = some m0 := by
  rw [findExistingMappingForDevice,
    List.find?_cons_of_pos (p := fun mapping =>
      match mapping.details with
      | none => false
      | some d => d.gtDevice == some deviceId) rest (by simp [hd, hgt])]

/-- A reconciliation pass over a single active device and a store whose every
mapping already points at that device under its live name is a fixed point:
no name update is staged, nothing is written, and the view is the device plus
the untouched store. -/
lemma reconcile_view_of_synced (now : Int) (nowIso : String) (ok : Nat → Bool)
    (deviceId deviceName : String) (devSn : Option String) (store : List Mapping)
    (hid : deviceId ≠ "")
    (hstore : ∀ m ∈ store, ∃ dd, m.details = some dd ∧ dd.gtDevice = some deviceId ∧
      dd.name = some deviceName) :
    (reconcile now nowIso ok [⟨deviceId, some deviceName, none, devSn⟩] store).view =
      ⟨[⟨deviceId, some deviceName, none, devSn⟩], store⟩ := by
  have hA : filterRetiredDevices now [⟨deviceId, some deviceName, none, devSn⟩] =
      [⟨deviceId, some deviceName, none, devSn⟩] := rfl
  have hupd : stageNameUpdates [⟨deviceId, some deviceName, none, devSn⟩] store nowIso
      = [] := by
    rw [stageNameUpdates, List.filterMap_eq_nil_iff]
    intro m hm
    obtain ⟨dd, hd, hgt, hnm⟩ := hstore m hm
    simp [hd, hgt, hnm, hid, deviceMapGet]
  have hkeep : filterOrphanMappings [⟨deviceId, some deviceName, none, devSn⟩] store
      = store := by
    rw [filterOrphanMappings, List.filter_eq_self]
    intro m hm
    obtain ⟨dd, hd, hgt, hnm⟩ := hstore m hm
    simp [keepMapping, hd, hgt, hid]
  simp only [reconcile, loadRuckitAssets, getAllDevices, getRuckitMappings,
    succeededRun, applySets, List.foldl_nil, hA, hupd, hkeep, ite_self,
    List.length_nil, gt_iff_lt, lt_self_iff_false, if_false]

/-! ## The claims -/

/-- C1 (corrected).  The claim's counterexample: `halfConfiguredMapping`
holds real (non-sentinel) values in its external-device-id and
external-driver-id fields, so it is not a placeholder, and it belongs to
device `devB`, not the editing device `devA`; yet the validator returns no
conflict for a candidate whose external-device-id `"dev-X"` equals that
mapping's — the mapping did not participate in the conflict checks, because
its token field alone is the sentinel `"TOKEN"`. -/
theorem placeholder_scope_counterexample :
    isPlaceholderEntry halfConfiguredMapping = false ∧
    halfConfiguredMapping.details.bind (·.riDevice) = some "dev-X" ∧
    halfConfiguredMapping.details.bind (·.gtDevice) = some "devB" ∧
    validateCredentials [halfConfiguredMapping] "tok-new" "dev-X" "drv-new" "devA"
      = none := by
  refine ⟨rfl, rfl, rfl, rfl⟩

/-- C1 (amended).  A mapping is excluded from the user-facing view exactly
when it is a placeholder (all three credential fields simultaneously equal
their sentinels); the validator, however, skips a mapping as soon as ANY one
of its three credential fields equals its sentinel (so every placeholder is
skipped, but so are partially configured mappings with at least one real
value). -/
theorem placeholder_scope_amended :
    (∀ (data : List Mapping) (m : Mapping),
      m ∈ filterPlaceholderEntries data ↔ m ∈ data ∧ isPlaceholderEntry m = false) ∧
    (∀ (m : Mapping) (rest : List Mapping) (t d r cur : String),
      (m.details.bind (·.riToken) = some "TOKEN" ∨
       m.details.bind (·.riDevice) = some "DeviceID" ∨
       m.details.bind (·.riDriver) = some "DriverID") →
      validateCredentials (m :: rest) t d r cur = validateCredentials rest t d r cur) ∧
    (∀ m : Mapping, isPlaceholderEntry m = true →
      m.details.bind (·.riToken) = some "TOKEN" ∧
      m.details.bind (·.riDevice) = some "DeviceID" ∧
      m.details.bind (·.riDriver) = some "DriverID") := by
  refine ⟨?_, ?_, ?_⟩
  · intro data m
    simp [filterPlaceholderEntries, List.mem_filter]
  · intro m rest t d r cur hs
    cases hd : m.details with
    | none => simp [hd] at hs
    | some dd =>
      rw [hd] at hs
      simp only [Option.some_bind'] at hs
      cases hA : dd.gtDevice == some cur <;>
        rcases hs with h | h | h <;>
          simp [validateCredentials, hd, hA, h]
  · intro m hp
    cases hd : m.details with
    | none => simp [isPlaceholderEntry, hd, jsOr] at hp
    | some dd =>
      rw [isPlaceholderEntry, hd] at hp
      simp only [Option.some_bind', Bool.and_eq_true, beq_iff_eq] at hp
      obtain ⟨⟨h1, h2⟩, h3⟩ := hp
      exact ⟨jsOr_eq_some _ _ _ h3 (by decide),
             jsOr_eq_some _ _ _ h1 (by decide),
             jsOr_eq_some _ _ _ h2 (by decide)⟩

/-- C1 witness: the amended theorem applied at concrete inputs — a
placeholder mapping is both dropped from the view filter and transparent to
the validator. -/
theorem placeholder_scope_amended_witness :
    (halfConfiguredMapping ∈ filterPlaceholderEntries [halfConfiguredMapping]) ∧
    validateCredentials [halfConfiguredMapping] "a" "b" "c" "x"
      = validateCredentials [] "a" "b" "c" "x" :=
  ⟨(placeholder_scope_amended.1 [halfConfiguredMapping] halfConfiguredMapping).mpr
      ⟨by simp, by decide⟩,
   placeholder_scope_amended.2.1 halfConfiguredMapping [] "a" "b" "c" "x"
      (Or.inl (by decide))⟩

/-- C2 (corrected).  The claim's counterexample: the candidate's
external-device-id `"dev-match"` equals the corresponding field of
`c2Mapping`, which is a non-placeholder mapping (its device and driver fields
are real), belongs to device `devB` ≠ editing device `devA` — yet
`validateCredentials` returns `null`, because `c2Mapping`'s token field is
the sentinel and the mapping is therefore skipped entirely. -/
theorem validate_nullIff_counterexample :
    isPlaceholderEntry c2Mapping = false ∧
    c2Mapping.details.bind (·.gtDevice) = some "devB" ∧
    c2Mapping.details.bind (·.riDevice) = some "dev-match" ∧
    validateCredentials [c2Mapping] "tok-A" "dev-match" "drv-A" "devA" = none := by
  refine ⟨rfl, rfl, rfl, rfl⟩

/-- C2 (amended).  `validateCredentials` returns exactly the report of the
first mapping in iteration order that it compares against and finds
colliding — where a mapping is compared against only when it has details,
belongs to a different device than the one being edited, and has NO sentinel
field at all (fully configured, rather than merely non-placeholder) — and
within that mapping the token collision takes precedence over the
external-device-id collision, which takes precedence over the
external-driver-id collision, the report naming the colliding mapping's
cached display name (`"Unknown Device"` when absent); it returns `null` iff
no such mapping exists. -/
theorem validate_firstConflict (data : List Mapping) (t d r cur : String) :
    validateCredentials data t d r cur =
      (data.find? (fun m => conflictsWith m t d r cur)).map
        (fun m => conflictMessage m t d r) := by
  induction data with
  | nil => rfl
  | cons m rest ih =>
    cases hc : conflictsWith m t d r cur with
    | false =>
      rw [validate_cons_skip m rest t d r cur hc,
          List.find?_cons_of_neg (p := fun m => conflictsWith m t d r cur) rest
            (by simp [hc]), ih]
    | true =>
      rw [validate_cons_conflict m rest t d r cur hc,
          List.find?_cons_of_pos (p := fun m => conflictsWith m t d r cur) rest hc]
      rfl

/-- C3 (corrected).  The claim's counterexample: with two staged name
updates and the first `Set` call failing, only one `Set` call is ever issued
— the second staged update is NOT issued, because the `try` in
`syncDeviceNames` wraps the whole `for` loop rather than each iteration.
(The reconciliation does still complete and produce a view.) -/
theorem syncNames_batch_abort_counterexample :
    (stageNameUpdates (filterRetiredDevices 100 [c3Device1, c3Device2])
        [c3Mapping1, c3Mapping2] "ISO").length = 2 ∧
    (loadRuckitAssets c3Inputs).issuedSets.length = 1 ∧
    (∃ v, (loadRuckitAssets c3Inputs).result = .ok v) := by
  refine ⟨rfl, rfl, ⟨_, rfl⟩⟩

/-- C3 (amended).  Staged name updates are issued sequentially, but a failure
of an individual update write aborts the remainder of the batch: once the
`i`-th `Set` call fails, no later staged update is issued (at most `i + 1`
calls in total; the skipped updates are retried on the next reconciliation
pass).  The error is caught, so the reconciliation as a whole still completes
and produces a view. -/
theorem syncNames_abort_amended (inp : LoadInputs) (i : Nat)
    (hfail : inp.ok i = false) :
    (∃ v, (loadRuckitAssets inp).result = .ok v) ∧
    (loadRuckitAssets inp).issuedSets.length ≤ i + 1 := by
  refine ⟨⟨_, rfl⟩, ?_⟩
  have := issuedRun_length_le inp.ok i hfail
    (stageNameUpdates
      (filterRetiredDevices inp.now (getAllDevices inp.deviceResp))
      (getRuckitMappings inp.mappingResp) inp.nowIso) 0 (Nat.zero_le i)
  simpa [loadRuckitAssets] using this

/-- C3 witness: the amended theorem at the concrete failing scenario. -/
theorem syncNames_abort_amended_witness :
    (∃ v, (loadRuckitAssets c3Inputs).result = .ok v) ∧
    (loadRuckitAssets c3Inputs).issuedSets.length ≤ 1 :=
  syncNames_abort_amended c3Inputs 0 rfl

/-- C4 (corrected).  The claim's counterexample: when both the device fetch
and the mapping fetch reject, `loadRuckitAssets` still produces a reconciled
view — the empty one — and surfaces no error, because `getAllDevices` and
`getRuckitMappings` each catch the rejection and return `[]`. -/
theorem fetch_failure_counterexample :
    (loadRuckitAssets c4Inputs).result = .ok ⟨[], []⟩ := rfl

/-- C4 (amended).  A failed device fetch or mapping fetch is NOT fatal: the
rejection is caught inside the fetch helper and treated as an empty result
set.  A failed device fetch yields the empty view (every mapping is then
orphaned); a failed mapping fetch yields a view with no mappings; in both
cases reconciliation completes with `.ok` and no error reaches the caller. -/
theorem fetch_failure_amended (inp : LoadInputs) :
    ((∃ msg, inp.deviceResp = .error msg) →
      (loadRuckitAssets inp).result = .ok ⟨[], []⟩) ∧
    ((∃ msg, inp.mappingResp = .error msg) →
      ∃ v, (loadRuckitAssets inp).result = .ok v ∧ v.assetsData = []) ∧
    (∀ msg : String, getAllDevices (.error msg) = [] ∧
      getRuckitMappings (.error msg) = []) := by
  refine ⟨?_, ?_, fun _ => ⟨rfl, rfl⟩⟩
  · rintro ⟨msg, hmsg⟩
    simp only [loadRuckitAssets, hmsg]
    have hfilter : ∀ l : List Mapping, filterOrphanMappings [] l = [] := by
      intro l
      rw [filterOrphanMappings, List.filter_eq_nil_iff]
      intro m _
      rw [keepMapping]
      cases m.details.bind (·.gtDevice) with
      | none => simp
      | some dId =>
        by_cases h : dId == ""
        · simp [h]
        · simp [h, List.any_nil]
    simp [getAllDevices, filterRetiredDevices, hfilter]
  · rintro ⟨msg, hmsg⟩
    refine ⟨_, rfl, ?_⟩
    simp [loadRuckitAssets, hmsg, getRuckitMappings, stageNameUpdates,
      filterOrphanMappings]

/-- C4 witness: the amended theorem at a concrete run whose mapping fetch
rejects. -/
theorem fetch_failure_amended_witness :
    ∃ v, (loadRuckitAssets c4MappingFailInputs).result = .ok v ∧ v.assetsData = [] :=
  (fetch_failure_amended c4MappingFailInputs).2.1 ⟨"boom", rfl⟩

/-- C5 (confirmed).  Whenever a trimmed candidate field is empty, or a
trimmed candidate field literally equals its own sentinel placeholder, or the
validator reports a collision, `saveCredentials` rejects the request locally:
the result is an error (`missingField`, `sentinelField` or `conflict` — the
spec's `ValidationError`s) and NO gateway call of any kind is issued, so no
stored state changes. -/
theorem save_local_rejection (assetsData : List Mapping)
    (deviceId deviceName tokenRaw deviceRaw driverRaw : String)
    (deviceResp : Option (List Device)) (nowIso : String)
    (h : jsTrim tokenRaw = "" ∨ jsTrim deviceRaw = "" ∨ jsTrim driverRaw = "" ∨
         jsTrim tokenRaw = "TOKEN" ∨ jsTrim deviceRaw = "DeviceID" ∨
         jsTrim driverRaw = "DriverID" ∨
         (∃ msg, validateCredentials assetsData (jsTrim tokenRaw) (jsTrim deviceRaw)
           (jsTrim driverRaw) deviceId = some msg)) :
    (∃ e, (saveCredentials assetsData deviceId deviceName tokenRaw deviceRaw
        driverRaw deviceResp nowIso).result = .error e) ∧
    (saveCredentials assetsData deviceId deviceName tokenRaw deviceRaw driverRaw
        deviceResp nowIso).calls = [] := by
  cases hb1 : (jsTrim tokenRaw == "" || jsTrim deviceRaw == ""
      || jsTrim driverRaw == "") with
  | true =>
    rw [save_reject_missing _ _ _ _ _ _ _ _ hb1]
    exact ⟨⟨_, rfl⟩, rfl⟩
  | false =>
    cases hb2 : (jsTrim tokenRaw == "TOKEN" || jsTrim deviceRaw == "DeviceID"
        || jsTrim driverRaw == "DriverID") with
    | true =>
      rw [save_reject_sentinel _ _ _ _ _ _ _ _ hb1 hb2]
      exact ⟨⟨_, rfl⟩, rfl⟩
    | false =>
      have hns := hb1
      have hss := hb2
      simp only [Bool.or_eq_false_iff, beq_eq_false_iff_ne] at hns hss
      rcases h with hx | hx | hx | hx | hx | hx | ⟨msg, hmsg⟩
      · exact absurd hx hns.1.1
      · exact absurd hx hns.1.2
      · exact absurd hx hns.2
      · exact absurd hx hss.1.1
      · exact absurd hx hss.1.2
      · exact absurd hx hss.2
      · rw [save_reject_conflict _ _ _ _ _ _ _ _ msg hb1 hb2 hmsg]
        exact ⟨⟨_, rfl⟩, rfl⟩

/-- C5 witness: an all-whitespace token field is rejected with no gateway
call. -/
theorem save_local_rejection_witness :
    (∃ e, (saveCredentials [] "dA" "Truck A" "   " "devX" "drvX" none
        "iso").result = .error e) ∧
    (saveCredentials [] "dA" "Truck A" "   " "devX" "drvX" none "iso").calls = [] :=
  save_local_rejection [] "dA" "Truck A" "   " "devX" "drvX" none "iso"
    (Or.inl (by decide))

/-- C6 (confirmed).  On a save that passes validation, the first gateway call
issued is the fresh `Get Device` fetch, and the written record's serial
number is exactly the one carried by that fetch's response (not a cached
value); the written record reuses the existing mapping's `id` and `version`
and is issued as an update (`Set`) when a mapping exists for the device, and
has a null `id` and is issued as a create (`Add`) when none exists. -/
theorem save_fresh_serial_and_path (assetsData : List Mapping)
    (deviceId deviceName tokenRaw deviceRaw driverRaw : String)
    (deviceResp : Option (List Device)) (nowIso : String)
    (h1 : (jsTrim tokenRaw == "" || jsTrim deviceRaw == ""
        || jsTrim driverRaw == "") = false)
    (h2 : (jsTrim tokenRaw == "TOKEN" || jsTrim deviceRaw == "DeviceID"
        || jsTrim driverRaw == "DriverID") = false)
    (h3 : validateCredentials assetsData (jsTrim tokenRaw) (jsTrim deviceRaw)
        (jsTrim driverRaw) deviceId = none) :
    (∀ existing, findExistingMappingForDevice assetsData deviceId = some existing →
      saveCredentials assetsData deviceId deviceName tokenRaw deviceRaw driverRaw
          deviceResp nowIso =
        ⟨.ok (mkMappingData deviceId deviceName (fetchedSerial deviceResp)
            (jsTrim tokenRaw) (jsTrim deviceRaw) (jsTrim driverRaw) nowIso
            existing.id existing.version),
         [.getDevice deviceId, .setAddInData (mkMappingData deviceId deviceName
            (fetchedSerial deviceResp) (jsTrim tokenRaw) (jsTrim deviceRaw)
            (jsTrim driverRaw) nowIso existing.id existing.version)]⟩) ∧
    (findExistingMappingForDevice assetsData deviceId = none →
      saveCredentials assetsData deviceId deviceName tokenRaw deviceRaw driverRaw
          deviceResp nowIso =
        ⟨.ok (mkMappingData deviceId deviceName (fetchedSerial deviceResp)
            (jsTrim tokenRaw) (jsTrim deviceRaw) (jsTrim driverRaw) nowIso none none),
         [.getDevice deviceId, .addAddInData (mkMappingData deviceId deviceName
            (fetchedSerial deviceResp) (jsTrim tokenRaw) (jsTrim deviceRaw)
            (jsTrim driverRaw) nowIso none none)]⟩) := by
  constructor
  · intro existing hex
    rw [saveCredentials_success assetsData deviceId deviceName tokenRaw deviceRaw
      driverRaw deviceResp nowIso h1 h2 h3, hex]
  · intro hnone
    rw [saveCredentials_success assetsData deviceId deviceName tokenRaw deviceRaw
      driverRaw deviceResp nowIso h1 h2 h3, hnone]

/-- C6 witness: the update path at concrete inputs — serial taken from the
fresh fetch response, `id`/`version` reused from the existing mapping, `Set`
issued. -/
theorem save_fresh_serial_and_path_witness :
    saveCredentials [c6Existing] "dA" "Truck A" " tokA " "devX" "drvX"
        (some [⟨"dA", some "Truck A", none, some "SN-7"⟩]) "iso" =
      ⟨.ok (mkMappingData "dA" "Truck A"
          (fetchedSerial (some [⟨"dA", some "Truck A", none, some "SN-7"⟩]))
          (jsTrim " tokA ") (jsTrim "devX") (jsTrim "drvX") "iso"
          c6Existing.id c6Existing.version),
       [.getDevice "dA", .setAddInData (mkMappingData "dA" "Truck A"
          (fetchedSerial (some [⟨"dA", some "Truck A", none, some "SN-7"⟩]))
          (jsTrim " tokA ") (jsTrim "devX") (jsTrim "drvX") "iso"
          c6Existing.id c6Existing.version)]⟩ :=
  (save_fresh_serial_and_path [c6Existing] "dA" "Truck A" " tokA " "devX" "drvX"
    (some [⟨"dA", some "Truck A", none, some "SN-7"⟩]) "iso"
    (by decide) (by decide) (by decide)).1 c6Existing rfl

/-- C8 (confirmed).  A device is retained by the retired-device filter
exactly when it has no `activeTo` or its `activeTo` is strictly after `now`;
and the reconciled view's device list is exactly the filtered list, so every
device whose `activeTo` is in the past is absent from the view and from every
computation built on it. -/
theorem retired_device_filter (now : Int) (devices : List Device) (dev : Device) :
    (dev ∈ filterRetiredDevices now devices ↔
      dev ∈ devices ∧ (dev.activeTo = none ∨ ∃ t, dev.activeTo = some t ∧ now < t)) ∧
    (∀ inp : LoadInputs, ∃ v, (loadRuckitAssets inp).result = .ok v ∧
      v.allDevicesData = filterRetiredDevices inp.now (getAllDevices inp.deviceResp)) := by
  constructor
  · rw [filterRetiredDevices, List.mem_filter]
    constructor
    · rintro ⟨hmem, hp⟩
      refine ⟨hmem, ?_⟩
      cases h : dev.activeTo with
      | none => exact Or.inl rfl
      | some t =>
        rw [h] at hp
        simp only [decide_eq_true_eq] at hp
        exact Or.inr ⟨t, rfl, hp⟩
    · rintro ⟨hmem, hcond⟩
      refine ⟨hmem, ?_⟩
      rcases hcond with h | ⟨t, ht, hlt⟩
      · simp [h]
      · simp only [ht, decide_eq_true_eq]
        exact hlt
  · intro inp
    exact ⟨_, rfl, rfl⟩

/-- C8 witness: a device with `activeTo = 10` is kept at `now = 5`. -/
theorem retired_device_filter_witness :
    c8Device ∈ filterRetiredDevices 5 [c8Device] :=
  ((retired_device_filter 5 [c8Device] c8Device).1).mpr
    ⟨List.mem_singleton.mpr rfl, Or.inr ⟨10, rfl, by decide⟩⟩

/-- C9 (confirmed).  A mapping whose `gt-device` matches no device of the
reconciled view's active-device list is absent from the view's mapping
list. -/
theorem orphan_mapping_excluded (inp : LoadInputs) (v : View) (m : Mapping)
    (hv : (loadRuckitAssets inp).result = .ok v)
    (h : ∀ dev ∈ v.allDevicesData, m.details.bind (·.gtDevice) ≠ some dev.id) :
    m ∉ v.assetsData := by
  obtain ⟨A, S⟩ := v
  dsimp only at h ⊢
  have hinj := Except.ok.inj hv
  rw [View.mk.injEq] at hinj
  obtain ⟨hA, hS⟩ := hinj
  subst hA
  subst hS
  intro hmem
  rw [filterOrphanMappings, List.mem_filter] at hmem
  obtain ⟨dId, hb, hne, dev, hdevmem, hidq⟩ := keepMapping_eq_true _ _ hmem.2
  exact h dev hdevmem (by rw [hb, hidq])

/-- C9 witness: with one active device `d1`, the mapping pointing at the
unknown device `zz` is absent from the reconciled view. -/
theorem orphan_mapping_excluded_witness :
    c9Orphan ∉ (⟨[c3Device1], []⟩ : View).assetsData :=
  orphan_mapping_excluded c9Inputs ⟨[c3Device1], []⟩ c9Orphan rfl (by decide)

/-- C10 (confirmed).  Every mapping retained in the reconciled view has a
truthy `gt-device`: a record whose details lack one (absent or empty string)
is dropped regardless of its credential fields. -/
theorem view_gtDevice_truthy (inp : LoadInputs) (v : View) (m : Mapping)
    (hv : (loadRuckitAssets inp).result = .ok v) (hm : m ∈ v.assetsData) :
    ∃ dId, m.details.bind (·.gtDevice) = some dId ∧ dId ≠ "" := by
  obtain ⟨A, S⟩ := v
  dsimp only at hm
  have hinj := Except.ok.inj hv
  rw [View.mk.injEq] at hinj
  obtain ⟨hA, hS⟩ := hinj
  subst hA
  subst hS
  rw [filterOrphanMappings, List.mem_filter] at hm
  obtain ⟨dId, hb, hne, _⟩ := keepMapping_eq_true _ _ hm.2
  exact ⟨dId, hb, hne⟩

/-- C10 witness: the one mapping the concrete run retains indeed carries the
non-empty device id `"d1"`. -/
theorem view_gtDevice_truthy_witness :
    ∃ dId, c10Mapping.details.bind (·.gtDevice) = some dId ∧ dId ≠ "" :=
  view_gtDevice_truthy c10Inputs ⟨[c3Device1], [c10Mapping]⟩ c10Mapping rfl
    (by decide)

/-- C7 (confirmed).  Record-level idempotence of clear and save, threaded
through the store and a reconciliation between the two calls, with no
concurrent external mutation (the same `Get Device` response serves both
calls and the re-fetches return the store with this system's own writes
applied).  Clear: for a device with an existing mapping, clearing, reloading,
and clearing again succeeds both times and both written records carry the
three sentinel credential fields.  Save: saving twice with identical
candidate values succeeds both times (create then update); both records carry
the same stored credential fields, and the second record agrees with the
first stored record on everything except `lastModified` (`date`), including
`id` and `version`. -/
theorem save_clear_idempotent
    (now : Int) (ok : Nat → Bool) (iso0 iso1 iso2 iso3 : String)
    (deviceId deviceName : String) (devSn : Option String)
    (resp : Option (List Device)) (tokenRaw deviceRaw driverRaw : String)
    (freshId : Nat)
    (hid : deviceId ≠ "")
    (h1 : (jsTrim tokenRaw == "" || jsTrim deviceRaw == ""
        || jsTrim driverRaw == "") = false)
    (h2 : (jsTrim tokenRaw == "TOKEN" || jsTrim deviceRaw == "DeviceID"
        || jsTrim driverRaw == "DriverID") = false) :
    (∀ (m0 : Mapping) (rest : List Mapping),
      (∀ m ∈ m0 :: rest, ∃ dd, m.details = some dd ∧ dd.gtDevice = some deviceId ∧
        dd.name = some deviceName) →
      ∃ r1 r2,
        (clearCredentials
            (reconcile now iso0 ok [⟨deviceId, some deviceName, none, devSn⟩]
              (m0 :: rest)).view.assetsData
            deviceId deviceName resp iso1).result = .ok r1 ∧
        credFields r1 = (some "TOKEN", some "DeviceID", some "DriverID") ∧
        (clearCredentials
            (reconcile now iso2 ok [⟨deviceId, some deviceName, none, devSn⟩]
              (gwSet (m0 :: rest) r1)).view.assetsData
            deviceId deviceName resp iso3).result = .ok r2 ∧
        credFields r2 = (some "TOKEN", some "DeviceID", some "DriverID")) ∧
    (∃ r1 r2,
      (saveCredentials
          (reconcile now iso0 ok [⟨deviceId, some deviceName, none, devSn⟩]
            []).view.assetsData
          deviceId deviceName tokenRaw deviceRaw driverRaw resp iso1).result = .ok r1 ∧
      (saveCredentials
          (reconcile now iso2 ok [⟨deviceId, some deviceName, none, devSn⟩]
            (gwAdd [] r1 freshId)).view.assetsData
          deviceId deviceName tokenRaw deviceRaw driverRaw resp iso3).result = .ok r2 ∧
      credFields r1 = (some (jsTrim tokenRaw), some (jsTrim deviceRaw),
        some (jsTrim driverRaw)) ∧
      credFields r2 = credFields r1 ∧
      detailsSansDate r2 = detailsSansDate { r1 with id := some freshId } ∧
      r2.id = some freshId ∧
      r2.version = ({ r1 with id := some freshId } : Mapping).version) := by
  constructor
  · intro m0 rest hstore
    obtain ⟨dd0, hd0, hgt0, hnm0⟩ := hstore m0 (List.mem_cons_self _ _)
    refine ⟨mkMappingData deviceId deviceName (fetchedSerial resp)
      "TOKEN" "DeviceID" "DriverID" iso1 m0.id m0.version,
      mkMappingData deviceId deviceName (fetchedSerial resp)
      "TOKEN" "DeviceID" "DriverID" iso3 m0.id m0.version, ?_, rfl, ?_, rfl⟩
    · rw [reconcile_view_of_synced now iso0 ok deviceId deviceName devSn
        (m0 :: rest) hid hstore]
      dsimp only
      rw [clearCredentials, findExisting_head m0 rest deviceId dd0 hd0 hgt0]
    · have hstore2 : ∀ m ∈ gwSet (m0 :: rest)
          (mkMappingData deviceId deviceName (fetchedSerial resp)
            "TOKEN" "DeviceID" "DriverID" iso1 m0.id m0.version),
          ∃ dd, m.details = some dd ∧ dd.gtDevice = some deviceId ∧
            dd.name = some deviceName := by
        intro m hm
        rw [gwSet, List.mem_map] at hm
        obtain ⟨orig, horig, heq⟩ := hm
        by_cases hc : (orig.id == (mkMappingData deviceId deviceName
            (fetchedSerial resp) "TOKEN" "DeviceID" "DriverID" iso1
            m0.id m0.version).id) = true
        · rw [if_pos hc] at heq
          subst heq
          exact ⟨_, rfl, rfl, rfl⟩
        · rw [if_neg hc] at heq
          subst heq
          exact hstore orig horig
      rw [reconcile_view_of_synced now iso2 ok deviceId deviceName devSn _ hid hstore2]
      dsimp only
      have hgw : gwSet (m0 :: rest)
          (mkMappingData deviceId deviceName (fetchedSerial resp)
            "TOKEN" "DeviceID" "DriverID" iso1 m0.id m0.version) =
          (mkMappingData deviceId deviceName (fetchedSerial resp)
            "TOKEN" "DeviceID" "DriverID" iso1 m0.id m0.version) ::
          List.map (fun m => if m.id == (mkMappingData deviceId deviceName
            (fetchedSerial resp) "TOKEN" "DeviceID" "DriverID" iso1
            m0.id m0.version).id
            then mkMappingData deviceId deviceName (fetchedSerial resp)
              "TOKEN" "DeviceID" "DriverID" iso1 m0.id m0.version
            else m) rest := by
        rw [gwSet, List.map_cons]
        congr 1
        simp [mkMappingData]
      rw [hgw, clearCredentials, findExisting_head _ _ deviceId _ rfl rfl]
      rfl
  · refine ⟨mkMappingData deviceId deviceName (fetchedSerial resp)
      (jsTrim tokenRaw) (jsTrim deviceRaw) (jsTrim driverRaw) iso1 none none,
      mkMappingData deviceId deviceName (fetchedSerial resp)
      (jsTrim tokenRaw) (jsTrim deviceRaw) (jsTrim driverRaw) iso3
      (some freshId) none, ?_, ?_, rfl, rfl, rfl, rfl, rfl⟩
    · rw [reconcile_view_of_synced now iso0 ok deviceId deviceName devSn []
        hid (by intro m hm; cases hm)]
      dsimp only
      rw [saveCredentials_success [] deviceId deviceName tokenRaw deviceRaw
        driverRaw resp iso1 h1 h2 rfl]
      rfl
    · have hstore1 : ∀ m ∈ gwAdd []
          (mkMappingData deviceId deviceName (fetchedSerial resp)
            (jsTrim tokenRaw) (jsTrim deviceRaw) (jsTrim driverRaw) iso1 none none)
          freshId,
          ∃ dd, m.details = some dd ∧ dd.gtDevice = some deviceId ∧
            dd.name = some deviceName := by
        intro m hm
        rw [gwAdd, List.nil_append, List.mem_singleton] at hm
        subst hm
        exact ⟨_, rfl, rfl, rfl⟩
      rw [reconcile_view_of_synced now iso2 ok deviceId deviceName devSn _ hid hstore1]
      dsimp only
      have hval : validateCredentials
          (gwAdd [] (mkMappingData deviceId deviceName (fetchedSerial resp)
            (jsTrim tokenRaw) (jsTrim deviceRaw) (jsTrim driverRaw) iso1 none none)
            freshId)
          (jsTrim tokenRaw) (jsTrim deviceRaw) (jsTrim driverRaw) deviceId = none := by
        simp [gwAdd, validateCredentials, mkMappingData]
      rw [saveCredentials_success _ deviceId deviceName tokenRaw deviceRaw
        driverRaw resp iso3 h1 h2 hval]
      rw [show gwAdd []
          (mkMappingData deviceId deviceName (fetchedSerial resp)
            (jsTrim tokenRaw) (jsTrim deviceRaw) (jsTrim driverRaw) iso1 none none)
          freshId =
        [{ mkMappingData deviceId deviceName (fetchedSerial resp)
            (jsTrim tokenRaw) (jsTrim deviceRaw) (jsTrim driverRaw) iso1 none none
           with id := some freshId }] from rfl]
      rw [findExisting_head _ _ deviceId _ rfl rfl]
      rfl

/-- C7 witness: the idempotence theorem at concrete inputs — clear twice on
device `dA` with existing mapping `c7m0`, and save twice with candidate
`" tokA "`/`"devX"`/`"drvX"`. -/
theorem save_clear_idempotent_witness :
    (∃ r1 r2,
      (clearCredentials
          (reconcile 0 "i0" (fun _ => true) [⟨"dA", some "Truck A", none, some "SN"⟩]
            (c7m0 :: [])).view.assetsData
          "dA" "Truck A" (some [⟨"dA", some "Truck A", none, some "SN-7"⟩])
          "i1").result = .ok r1 ∧
      credFields r1 = (some "TOKEN", some "DeviceID", some "DriverID") ∧
      (clearCredentials
          (reconcile 0 "i2" (fun _ => true) [⟨"dA", some "Truck A", none, some "SN"⟩]
            (gwSet (c7m0 :: []) r1)).view.assetsData
          "dA" "Truck A" (some [⟨"dA", some "Truck A", none, some "SN-7"⟩])
          "i3").result = .ok r2 ∧
      credFields r2 = (some "TOKEN", some "DeviceID", some "DriverID")) ∧
    (∃ r1 r2,
      (saveCredentials
          (reconcile 0 "i0" (fun _ => true) [⟨"dA", some "Truck A", none, some "SN"⟩]
            []).view.assetsData
          "dA" "Truck A" " tokA " "devX" "drvX"
          (some [⟨"dA", some "Truck A", none, some "SN-7"⟩]) "i1").result = .ok r1 ∧
      (saveCredentials
          (reconcile 0 "i2" (fun _ => true) [⟨"dA", some "Truck A", none, some "SN"⟩]
            (gwAdd [] r1 42)).view.assetsData
          "dA" "Truck A" " tokA " "devX" "drvX"
          (some [⟨"dA", some "Truck A", none, some "SN-7"⟩]) "i3").result = .ok r2 ∧
      credFields r1 = (some (jsTrim " tokA "), some (jsTrim "devX"),
        some (jsTrim "drvX")) ∧
      credFields r2 = credFields r1 ∧
      detailsSansDate r2 = detailsSansDate { r1 with id := some 42 } ∧
      r2.id = some 42 ∧
      r2.version = ({ r1 with id := some 42 } : Mapping).version) :=
  ⟨(save_clear_idempotent 0 (fun _ => true) "i0" "i1" "i2" "i3" "dA" "Truck A"
      (some "SN") (some [⟨"dA", some "Truck A", none, some "SN-7"⟩])
      " tokA " "devX" "drvX" 42 (by decide) (by decide) (by decide)).1 c7m0 []
      (by intro m hm
          rw [List.mem_singleton] at hm
          subst hm
          exact ⟨_, rfl, rfl, rfl⟩),
   (save_clear_idempotent 0 (fun _ => true) "i0" "i1" "i2" "i3" "dA" "Truck A"
      (some "SN") (some [⟨"dA", some "Truck A", none, some "SN-7"⟩])
      " tokA " "devX" "drvX" 42 (by decide) (by decide) (by decide)).2⟩

end RuckitAssets
